import Mathlib

/-!
Shallow embedding of the AntiTruffa scoring engine
(src/app/main.py, src/app/analyze_text.py, src/app/analyze_image.py,
src/app/storage.py).

Strings are processed as `List Char`; Python `str` operations
(`strip`, `lower`, `in`, `split`, `startswith`, `count`) are modelled on
ASCII code points (all rule tables and all inputs used in the theorems are
ASCII, so the Unicode special cases of the Python versions never apply).
-/

set_option maxRecDepth 40000

namespace AntiTruffa

/-- Code points of a string literal, the working representation. -/
def chars (s : String) : List Char := s.data

/-- Back to `String` for result fields. -/
def strOf (l : List Char) : String := String.mk l

/-- Python `str.strip()` whitespace class (ASCII part). -/
def wsCh (c : Char) : Bool :=
  c = ' ' || c = '\t' || c = '\n' || c = '\r' || c = '\x0b' || c = '\x0c'

/-- Python regex `\S` (ASCII part). -/
def nonWs (c : Char) : Bool := !wsCh c

/-- Python `str.strip()`: drop leading and trailing whitespace. -/
def stripChs (l : List Char) : List Char :=
  ((l.dropWhile wsCh).reverse.dropWhile wsCh).reverse

/-- Python `str.lower()` (ASCII part). -/
def lowerCh (c : Char) : Char :=
  if 'A' ≤ c ∧ c ≤ 'Z' then Char.ofNat (c.toNat + 32) else c

def lowerChs (l : List Char) : List Char := l.map lowerCh

/-- Python `str.startswith(pat)`. -/
def startsWithChs : List Char → List Char → Bool
  | _, [] => true
  | [], _ :: _ => false
  | c :: cs, p :: ps => c = p && startsWithChs cs ps

/-- Python `pat in hay` substring containment. -/
def hasSub (hay pat : List Char) : Bool :=
  match hay with
  | [] => startsWithChs [] pat
  | c :: t => startsWithChs (c :: t) pat || hasSub t pat

/-- Python `str.split(sep)` for a single-character separator
(keeps empty pieces; `"".split(".") == [""]`). -/
def splitOnCh (sep : Char) : List Char → List (List Char)
  | [] => [[]]
  | c :: t =>
    if c = sep then [] :: splitOnCh sep t
    else
      match splitOnCh sep t with
      | [] => [[c]]
      | h :: r => (c :: h) :: r

/-- Python `str <` lexicographic comparison by code point. -/
def lexLt : List Char → List Char → Bool
  | [], [] => false
  | [], _ :: _ => true
  | _ :: _, [] => false
  | x :: xs, y :: ys =>
    if x.toNat < y.toNat then true
    else if x = y then lexLt xs ys
    else false

def insertSorted (x : List Char) : List (List Char) → List (List Char)
  | [] => [x]
  | y :: r => if lexLt x y then x :: y :: r else y :: insertSorted x r

def sortLex : List (List Char) → List (List Char)
  | [] => []
  | x :: r => insertSorted x (sortLex r)

/-- Python `sorted(set(xs))`. -/
def sortDedup (xs : List (List Char)) : List (List Char) :=
  sortLex xs.eraseDups

/-- Python `", ".join(xs)`. -/
def joinComma : List (List Char) → List Char
  | [] => []
  | [x] => x
  | x :: y :: r => x ++ chars ", " ++ joinComma (y :: r)

/-! ## src/app/analyze_text.py -/

/-- One fired heuristic rule (`{"code": .., "weight": .., "evidence": ..}`). -/
structure Signal where
  code : String
  weight : Nat
  evidence : String
deriving DecidableEq

structure ATextResult where
  score : Nat
  level : String
  signals : List Signal
  category : String
  advice : List String
deriving DecidableEq

/-- `analyze_text` from src/app/analyze_text.py.  Each `re.search` in the
source is an alternation of fixed words, i.e. a substring test against the
lowercased text. -/
def analyze_text (text : String) : ATextResult :=
  let tl := lowerChs (chars text)
  let linkHit := hasSub tl (chars "http://") || hasSub tl (chars "https://")
  let shortHit := hasSub tl (chars "bit.ly") || hasSub tl (chars "tinyurl") ||
    hasSub tl (chars "t.co")
  let credHit := hasSub tl (chars "password") || hasSub tl (chars "credenziali") ||
    hasSub tl (chars "otp") || hasSub tl (chars "codice") || hasSub tl (chars "carta") ||
    hasSub tl (chars "iban") || hasSub tl (chars "dati")
  let threatHit := hasSub tl (chars "bloccato") || hasSub tl (chars "sospeso") ||
    hasSub tl (chars "urgente") || hasSub tl (chars "verifica") ||
    hasSub tl (chars "aggiorna") || hasSub tl (chars "conferma")
  let sigs1 : List Signal :=
    (if linkHit then [⟨"LINK_PRESENT", 10, "link presente"⟩] else []) ++
    (if shortHit then [⟨"SHORTENER", 20, "shortener rilevato"⟩] else []) ++
    (if credHit then [⟨"CREDENTIALS_REQUEST", 20, "richiesta dati sensibili"⟩] else []) ++
    (if threatHit then [⟨"ACCOUNT_THREAT", 20, "minaccia o urgenza"⟩] else [])
  let score1 := (if linkHit then 10 else 0) + (if shortHit then 20 else 0) +
    (if credHit then 20 else 0) + (if threatHit then 20 else 0)
  let codes := sigs1.map Signal.code
  let combo1 := codes.contains "SHORTENER" && codes.contains "CREDENTIALS_REQUEST"
  let combo2 := codes.contains "LINK_PRESENT" && codes.contains "ACCOUNT_THREAT"
  let sigs := sigs1 ++
    (if combo1 then [⟨"DANGEROUS_COMBO", 25, "shortener + richiesta dati"⟩] else []) ++
    (if combo2 then [⟨"PHISHING_PATTERN", 20, "link + minaccia account"⟩] else [])
  let score := min (score1 + (if combo1 then 25 else 0) + (if combo2 then 20 else 0)) 100
  let level := if score < 30 then "basso" else if score < 70 then "medio" else "alto"
  let category :=
    if codes.contains "CREDENTIALS_REQUEST" then "phishing_link"
    else if codes.contains "ACCOUNT_THREAT" then "account_threat"
    else "sospetto_generico"
  let advice :=
    if level = "alto" then
      ["Non cliccare il link.",
       "Non inserire password, OTP o dati carta.",
       "Controlla solo dall\x27app ufficiale.",
       "Segnala come spam."]
    else if level = "medio" then
      ["Verifica sempre dal sito ufficiale.",
       "Non fidarti di richieste urgenti."]
    else
      ["Resta prudente.",
       "Non condividere dati personali."]
  ⟨score, level, sigs, category, advice⟩

example : (analyze_text "bit.ly password").score = 65 := by decide
example : (analyze_text "").level = "basso" := by decide
example : (analyze_text "https://bit.ly dammi la password urgente").score = 100 := by decide

/-! ## src/app/main.py — LINK_RE and the text/email scorers -/

/-- One attempt of `LINK_RE = re.compile(r"(https?://\S+|www\.\S+)", re.IGNORECASE)`
at the head of the list: the alternation is a case-insensitive literal prefix
(`http://`, `https://` or `www.`) followed by a greedy non-empty run of
non-whitespace.  Returns the matched token and the remaining suffix. -/
def linkTokenAt (l : List Char) : Option (List Char × List Char) :=
  if startsWithChs (lowerChs l) (chars "https://") then
    let body := (l.drop 8).takeWhile nonWs
    if body = [] then none else some (l.take (8 + body.length), l.drop (8 + body.length))
  else if startsWithChs (lowerChs l) (chars "http://") then
    let body := (l.drop 7).takeWhile nonWs
    if body = [] then none else some (l.take (7 + body.length), l.drop (7 + body.length))
  else if startsWithChs (lowerChs l) (chars "www.") then
    let body := (l.drop 4).takeWhile nonWs
    if body = [] then none else some (l.take (4 + body.length), l.drop (4 + body.length))
  else none

/-- `LINK_RE.findall`: scan left to right, non-overlapping matches, resume
after each match.  The fuel starts at the list length; every step consumes at
least one character, so the fuel never runs out before the list does. -/
def scanLinks : Nat → List Char → List (List Char)
  | 0, _ => []
  | _ + 1, [] => []
  | fuel + 1, c :: rest =>
    match linkTokenAt (c :: rest) with
    | some (tok, r2) => tok :: scanLinks fuel r2
    | none => scanLinks fuel rest

def findLinks (l : List Char) : List (List Char) := scanLinks l.length l

example : findLinks (chars "vai su http://x.y ora") = [chars "http://x.y"] := by decide
example : findLinks (chars "WWW.a e https://b c") = [chars "WWW.a", chars "https://b"] := by
  decide
example : findLinks (chars "http:// www") = [] := by decide

/-- `TEXT_RED_FLAGS` from src/app/main.py. -/
def TEXT_RED_FLAGS : List (List Char) :=
  [chars "urgente", chars "entro 24 ore", chars "entro 12 ore", chars "subito",
   chars "immediato", chars "adesso", chars "account bloccato", chars "account sospeso",
   chars "verifica il tuo account", chars "conferma i tuoi dati", chars "password",
   chars "codice otp", chars "codice di verifica", chars "pin", chars "iban",
   chars "carta", chars "cvv", chars "pagamento non riuscito", chars "rimborso",
   chars "fattura", chars "sanzione", chars "multa", chars "agenzia delle entrate",
   chars "inps", chars "poste", chars "postepay", chars "paypal", chars "amazon",
   chars "supporto", chars "assistenza"]

/-- `THREAT_PHRASES` from src/app/main.py. -/
def THREAT_PHRASES : List (List Char) :=
  [chars "verrà chiuso", chars "verrà sospeso", chars "ultimatum", chars "pena",
   chars "sanzione", chars "azione legale", chars "se non", chars "evita il blocco",
   chars "ultimo avviso"]

/-- The sensitive-data list inlined in `score_text`/`score_email`
(`any(x in low for x in ["password", "otp", "codice", "pin", "cvv", "iban"])`). -/
def ST_SENSITIVE : List (List Char) :=
  [chars "password", chars "otp", chars "codice", chars "pin", chars "cvv", chars "iban"]

def st_flagHits (low : List Char) : List (List Char) :=
  TEXT_RED_FLAGS.filter (fun k => hasSub low k)

def st_flagScore (low : List Char) : Nat :=
  if st_flagHits low = [] then 0 else min 45 (5 * (st_flagHits low).length)

def st_threatHits (low : List Char) : List (List Char) :=
  THREAT_PHRASES.filter (fun t => hasSub low t)

def st_threatScore (low : List Char) : Nat :=
  if st_threatHits low = [] then 0 else min 25 (10 * (st_threatHits low).length)

def st_sensScore (low : List Char) : Nat :=
  if ST_SENSITIVE.any (fun x => hasSub low x) then 20 else 0

/-- The part of the `score_text` sum that is independent of the link rule
(red flags + threat phrases + sensitive-data request), on the stripped
message. -/
def st_restScore (msg : List Char) : Nat :=
  st_flagScore (lowerChs msg) + st_threatScore (lowerChs msg) + st_sensScore (lowerChs msg)

structure STextResult where
  score : Nat
  verdict : String
  reasons : List String
  links : List String
deriving DecidableEq

/-- `score_text` from src/app/main.py (lines 162-203). -/
def score_text (message : String) : STextResult :=
  let msg := stripChs (chars message)
  if msg = [] then ⟨0, "Inserisci un testo", ["Non hai incollato nulla."], []⟩
  else
    let low := lowerChs msg
    let links := findLinks msg
    let sLink := if links = [] then 0 else 15
    let rLink : List String :=
      if links = [] then []
      else ["Contiene " ++ Nat.repr links.length ++
            " link nel messaggio (spesso usati per portarti fuori)."]
    let rFlags : List String :=
      if st_flagHits low = [] then []
      else ["Parole/temi tipici da truffa: " ++
            strOf (joinComma (sortDedup (st_flagHits low))) ++ "."]
    let rThr : List String :=
      if st_threatHits low = [] then []
      else ["Tono minaccioso/ultimatum per farti agire di fretta."]
    let rSens : List String :=
      if ST_SENSITIVE.any (fun x => hasSub low x) then
        ["Richiesta possibile di dati sensibili (password/codici/IBAN)."]
      else []
    let score := sLink + st_flagScore low + st_threatScore low + st_sensScore low
    let verdict :=
      if 60 ≤ score then "Molto sospetto"
      else if 30 ≤ score then "Sospetto"
      else "Probabilmente ok (ma attenzione)"
    let reasons := rLink ++ rFlags ++ rThr ++ rSens
    let reasons :=
      if reasons = [] then
        ["Nessun segnale forte rilevato, ma controlla sempre mittente e contesto."]
      else reasons
    ⟨min score 100, verdict, reasons, links.map strOf⟩

example : (score_text "   ").verdict = "Inserisci un testo" := by decide
example : (score_text "urgente: password su http://a.b").score = 45 := by decide
example : (score_text "http://x").reasons =
    ["Contiene 1 link nel messaggio (spesso usati per portarti fuori)."] := by decide

/-- `EMAIL_HINTS` from src/app/main.py. -/
def EMAIL_HINTS : List (List Char) :=
  [chars "from:", chars "da:", chars "subject:", chars "oggetto:", chars "reply-to",
   chars "rispondi a", chars "unsubscribe", chars "disiscriviti"]

/-- `score_email` from src/app/main.py (lines 214-260). -/
def score_email (email_text : String) : STextResult :=
  let txt := stripChs (chars email_text)
  if txt = [] then ⟨0, "Inserisci una email", ["Non hai incollato nulla."], []⟩
  else
    let low := lowerChs txt
    let sHint := if EMAIL_HINTS.any (fun h => hasSub low h) then 5 else 0
    let rHint : List String :=
      if EMAIL_HINTS.any (fun h => hasSub low h) then
        ["Sembra contenere intestazioni email (ok per analisi)."]
      else []
    let links := findLinks txt
    let sLink := if links = [] then 0 else 20
    let rLink : List String :=
      if links = [] then []
      else ["Contiene " ++ Nat.repr links.length ++
            " link: controlla che puntino a domini ufficiali."]
    let sFlags := if st_flagHits low = [] then 0 else min 40 (4 * (st_flagHits low).length)
    let rFlags : List String :=
      if st_flagHits low = [] then []
      else ["Ci sono parole/temi tipici da phishing (urgenza, account, pagamenti, codici)."]
    let rThr : List String :=
      if st_threatHits low = [] then []
      else ["Tono minaccioso/ultimatum: classico phishing."]
    let rSens : List String :=
      if ST_SENSITIVE.any (fun x => hasSub low x) then
        ["Possibile richiesta di dati sensibili (mai darli via email)."]
      else []
    let score := sHint + sLink + sFlags + st_threatScore low + st_sensScore low
    let verdict :=
      if 60 ≤ score then "Molto sospetta"
      else if 30 ≤ score then "Sospetta"
      else "Probabilmente ok (ma attenzione)"
    let reasons := rHint ++ rLink ++ rFlags ++ rThr ++ rSens
    let reasons :=
      if reasons = [] then
        ["Nessun segnale forte rilevato, ma verifica sempre mittente e link."]
      else reasons
    ⟨min score 100, verdict, reasons, links.map strOf⟩

example : (score_email "from: a@b password http://x").score = 49 := by decide
example : (score_email " ").verdict = "Inserisci una email" := by decide

/-! ## Model of `urllib.parse.urlparse` (the parts `score_url` consumes)

`score_url` uses `p.scheme`, `p.netloc`, `p.path`, `p.query` and `p.hostname`.
CPython `urlsplit`: strip leading/trailing C0-control-or-space, remove every
tab/CR/LF, split off a valid `scheme:`, then `//netloc` (up to `/`, `?` or
`#`), then the `#fragment`, then the `?query`.  A netloc with an unbalanced
`[`/`]` raises `ValueError` (modelled as `none`; the additional CPython
validation of what stands inside balanced brackets is elided — no rule or
input in this development has a bracketed host). -/

structure USplit where
  scheme : List Char
  netloc : List Char
  path : List Char
  query : List Char
deriving DecidableEq

def isAsciiAlphaCh (c : Char) : Bool :=
  ('a' ≤ c ∧ c ≤ 'z') ∨ ('A' ≤ c ∧ c ≤ 'Z')

def isDigitCh (c : Char) : Bool := '0' ≤ c ∧ c ≤ '9'

/-- CPython `scheme_chars`. -/
def isSchemeCh (c : Char) : Bool :=
  isAsciiAlphaCh c || isDigitCh c || c = '+' || c = '-' || c = '.'

/-- WHATWG C0-control-or-space class stripped at both ends by `urlsplit`. -/
def c0OrSpace (c : Char) : Bool := c.toNat ≤ 32

def urlparse (u : List Char) : Option USplit :=
  let u := ((u.dropWhile c0OrSpace).reverse.dropWhile c0OrSpace).reverse
  let u := u.filter (fun c => ¬(c = '\t' ∨ c = '\r' ∨ c = '\n'))
  let pre := u.takeWhile (fun c => c ≠ ':')
  let hasScheme := pre.length < u.length ∧ pre ≠ [] ∧
    isAsciiAlphaCh pre.headI ∧ pre.all isSchemeCh
  let scheme := if hasScheme then lowerChs pre else []
  let rest := if hasScheme then u.drop (pre.length + 1) else u
  let hasNetloc := startsWithChs rest (chars "//")
  let netloc :=
    if hasNetloc then (rest.drop 2).takeWhile (fun c => ¬(c = '/' ∨ c = '?' ∨ c = '#'))
    else []
  let rest2 := if hasNetloc then rest.drop (2 + netloc.length) else rest
  if (netloc.contains '[' ∨ netloc.contains ']') ∧
     ¬(netloc.contains '[' ∧ netloc.contains ']') then none
  else
    let beforeFrag := rest2.takeWhile (fun c => c ≠ '#')
    let path := beforeFrag.takeWhile (fun c => c ≠ '?')
    let query :=
      if path.length < beforeFrag.length then beforeFrag.drop (path.length + 1) else []
    some ⟨scheme, netloc, path, query⟩

/-- `p.hostname`: part of the netloc after the last `@`, then either the
bracketed host or everything before the first `:`, lowercased.  (`None`
becomes the empty string via `(p.hostname or "")`.) -/
def hostnameOf (netloc : List Char) : List Char :=
  let afterAt := (splitOnCh '@' netloc).getLastD []
  if afterAt.contains '[' then
    lowerChs (((afterAt.dropWhile (fun c => c ≠ '[')).drop 1).takeWhile (fun c => c ≠ ']'))
  else
    lowerChs (afterAt.takeWhile (fun c => c ≠ ':'))

example : urlparse (chars "https://ftp://192.168.0.1/login") =
    some ⟨chars "https", chars "ftp:", chars "//192.168.0.1/login", []⟩ := by decide
example : hostnameOf (chars "ftp:") = chars "ftp" := by decide
example : hostnameOf (chars "USER@Ex.COM:8080") = chars "ex.com" := by decide
example : urlparse (chars "http://[abc") = none := by decide

/-! ## src/app/main.py — URL scorer -/

/-- `SHORTENERS` from src/app/main.py. -/
def SHORTENERS : List (List Char) :=
  [chars "bit.ly", chars "tinyurl.com", chars "t.co", chars "goo.gl", chars "ow.ly",
   chars "is.gd", chars "cutt.ly", chars "rebrand.ly", chars "buff.ly", chars "rb.gy",
   chars "shorturl.at"]

/-- `SUSPICIOUS_KEYWORDS` from src/app/main.py. -/
def SUSPICIOUS_KEYWORDS : List (List Char) :=
  [chars "login", chars "verify", chars "verification", chars "account", chars "secure",
   chars "security", chars "update", chars "password", chars "reset", chars "confirm",
   chars "billing", chars "invoice", chars "payment", chars "wallet", chars "bank",
   chars "support", chars "helpdesk", chars "session", chars "locked", chars "unlock"]

/-- `SUSPICIOUS_TLDS` from src/app/main.py. -/
def SUSPICIOUS_TLDS : List (List Char) :=
  [chars "zip", chars "mov", chars "top", chars "xyz", chars "click", chars "fit",
   chars "quest", chars "country", chars "tk", chars "gq"]

/-- `BRAND_BAIT` from src/app/main.py. -/
def BRAND_BAIT : List (List Char) :=
  [chars "paypal", chars "poste", chars "postepay", chars "amazon", chars "apple",
   chars "microsoft", chars "google", chars "facebook", chars "instagram",
   chars "whatsapp", chars "inps", chars "agenziaentrate", chars "netflix",
   chars "booking", chars "banca", chars "intesa", chars "unicredit", chars "tim",
   chars "vodafone"]

/-- One `\d{1,3}` chunk of `IPV4_RE`; greedy with no useful backtracking
(see the comment on `ipv4Match`). -/
def ipv4Chunk (l : List Char) : Option (List Char) :=
  let d := l.takeWhile isDigitCh
  if d.length = 0 ∨ 3 < d.length then none else some (l.drop d.length)

def ipv4Dot (l : List Char) : Option (List Char) :=
  match l with
  | '.' :: r => ipv4Chunk r
  | _ => none

/-- `IPV4_RE.match(host)` for `^\d{1,3}(\.\d{1,3}){3}$`: backtracking the
greedy `\d{1,3}` can only leave a digit (not the required `.` or the end) as
the next character, so the greedy, non-backtracking reading is exact. -/
def ipv4Match (l : List Char) : Bool :=
  match ipv4Chunk l >>= ipv4Dot >>= ipv4Dot >>= ipv4Dot with
  | some [] => true
  | _ => false

example : ipv4Match (chars "192.168.0.1") = true := by decide
example : ipv4Match (chars "1234.1.1.1") = false := by decide
example : ipv4Match (chars "1.2.3") = false := by decide
example : ipv4Match (chars "1.2.3.4.5") = false := by decide

/-- The scheme-prepending normalization at the top of `score_url`:
`if raw and not raw.lower().startswith(("http://", "https://")):
raw = "https://" + raw`. -/
def normRaw (raw : List Char) : List Char :=
  if raw ≠ [] ∧ ¬(startsWithChs (lowerChs raw) (chars "http://") ∨
      startsWithChs (lowerChs raw) (chars "https://")) then
    chars "https://" ++ raw
  else raw

/-- The eleven weighted contributions summed by `score_url` (src/app/main.py
lines 79-128), in source order, on the normalized raw URL and its parse. -/
def urlScoreOf (rawN : List Char) (p : USplit) : Nat :=
  let host := hostnameOf p.netloc
  let path := lowerChs p.path
  let query := lowerChs p.query
  let parts := splitOnCh '.' host
  let text := host ++ chars "/" ++ path ++ chars "?" ++ query
  let kwHits := SUSPICIOUS_KEYWORDS.filter (fun k => hasSub text k)
  let tld := parts.getLastD []
  let baitHits := BRAND_BAIT.filter (fun b => hasSub host b)
  (if p.scheme ≠ chars "https" then 15 else 0) +
  (if p.netloc.contains '@' then 25 else 0) +
  (if ipv4Match host then 30 else 0) +
  (if startsWithChs host (chars "xn--") || hasSub host (chars "xn--") then 20 else 0) +
  (if 4 ≤ parts.length then 15 else 0) +
  (if 2 ≤ host.count '-' then 10 else 0) +
  (if 90 < rawN.length then 10 else 0) +
  (if SHORTENERS.contains host then 20 else 0) +
  (if kwHits ≠ [] then min 25 (5 * kwHits.length) else 0) +
  (if SUSPICIOUS_TLDS.contains tld then 15 else 0) +
  (if baitHits ≠ [] then 15 else 0)

/-- The reason strings appended by the same eleven rules, in source order. -/
def urlReasonsOf (rawN : List Char) (p : USplit) : List String :=
  let host := hostnameOf p.netloc
  let path := lowerChs p.path
  let query := lowerChs p.query
  let parts := splitOnCh '.' host
  let text := host ++ chars "/" ++ path ++ chars "?" ++ query
  let kwHits := SUSPICIOUS_KEYWORDS.filter (fun k => hasSub text k)
  let tld := parts.getLastD []
  let baitHits := BRAND_BAIT.filter (fun b => hasSub host b)
  (if p.scheme ≠ chars "https" then ["Non usa HTTPS (http invece di https)."] else []) ++
  (if p.netloc.contains '@' then
    ["Contiene \x27@\x27 nel dominio (mascheramento tipico)."] else []) ++
  (if ipv4Match host then ["Il dominio è un indirizzo IP (molto sospetto)."] else []) ++
  (if startsWithChs host (chars "xn--") || hasSub host (chars "xn--") then
    ["Dominio in punycode (possibile dominio “falso”)."] else []) ++
  (if 4 ≤ parts.length then
    ["Troppi sottodomini (spesso usati per imitare siti famosi)."] else []) ++
  (if 2 ≤ host.count '-' then ["Molti trattini nel dominio (pattern da phishing)."] else []) ++
  (if 90 < rawN.length then ["URL molto lungo (può nascondere la destinazione)."] else []) ++
  (if SHORTENERS.contains host then
    ["È un link accorciato (non vedi dove porta davvero)."] else []) ++
  (if kwHits ≠ [] then
    ["Parole tipiche da phishing nel link: " ++ strOf (joinComma (sortDedup kwHits)) ++ "."]
   else []) ++
  (if SUSPICIOUS_TLDS.contains tld then
    ["Estensione sospetta: ." ++ strOf tld] else []) ++
  (if baitHits ≠ [] then
    ["Nel dominio compare un nome “esca” (" ++ strOf (joinComma (sortDedup baitHits)) ++
     "): occhio ai falsi."] else [])

structure UrlResult where
  score : Nat
  verdict : String
  reasons : List String
  display : String
deriving DecidableEq

/-- `score_url` from src/app/main.py (lines 57-140).  The `try`/`except`
around `urlparse` is the `none` branch; the two early returns (parse failure,
missing host) and the final verdict thresholds are verbatim. -/
def score_url (url : String) : UrlResult :=
  let raw := stripChs (chars url)
  let display := strOf raw
  let rawN := normRaw raw
  match urlparse rawN with
  | none => ⟨100, "Sembra phishing", ["URL non valido o non interpretabile."], display⟩
  | some p =>
    if hostnameOf p.netloc = [] then
      ⟨100, "Sembra phishing", ["Manca il dominio nell’URL."], display⟩
    else
      let score := urlScoreOf rawN p
      let reasons := urlReasonsOf rawN p
      let verdict :=
        if 45 ≤ score then "Sembra phishing"
        else if 20 ≤ score then "Sospetto"
        else "Probabilmente ok (ma verifica comunque)"
      let reasons :=
        if reasons = [] then
          ["Nessun segnale forte rilevato, ma controlla sempre dominio e mittente."]
        else reasons
      ⟨score, verdict, reasons, display⟩

example : (score_url "ftp://192.168.0.1/login").score = 5 := by decide
example : (score_url "http://192.168.0.1/login").score = 65 := by decide
example : (score_url "http://192.168.0.1/login").verdict = "Sembra phishing" := by decide
example : (score_url " ").score = 100 := by decide
example : (score_url "https://example.com").score = 0 := by decide

/-! ## src/app/analyze_image.py

`PIL.Image.open(...).convert("RGB")` and the derived features (size, EXIF
presence, grayscale variance from `ImageStat`) are external collaborators:
the decoder is a parameter `decode` producing the feature record `ImgData`
(`none` = the decoder raised, e.g. `UnidentifiedImageError`), and the SHA-256
fingerprint `fingerprint_bytes` is a parameter `fpB`.  The variance is a
float in PIL; it is modelled as a rational, which is exact for every
comparison the code performs. -/

structure ImgData where
  w : Nat
  h : Nat
  exifPresent : Bool
  variance : ℚ
deriving DecidableEq

inductive ImgError where
  | decodeFailure
deriving DecidableEq

structure ImgResult where
  score : Nat
  level : String
  signals : List Signal
  notes : List String
  exifPresent : Bool
  fp : String
  category : String
deriving DecidableEq

/-- Python `f"var={var:.1f}"` formatting of a non-negative value, one decimal
digit, rounding to nearest (the half-even tie rule of `%.1f` is elided; no
value used in this development sits on a tie). -/
def fmt1 (q : ℚ) : String :=
  let t := (q.num.toNat * 20 + q.den) / (2 * q.den)
  Nat.repr (t / 10) ++ "." ++ Nat.repr (t % 10)

/-- The three weighted rules of `analyze_image_bytes`
(src/app/analyze_image.py lines 21-30), in source order. -/
def imgSignals (d : ImgData) : List Signal :=
  (if d.exifPresent then [] else [⟨"NO_EXIF", 10, "Nessun EXIF"⟩]) ++
  (if d.w < 500 ∨ d.h < 500 then
    [⟨"LOW_RES", 8, Nat.repr d.w ++ "x" ++ Nat.repr d.h⟩] else []) ++
  (if d.variance < 150 then [⟨"LOW_DETAIL", 10, "var=" ++ fmt1 d.variance⟩] else [])

/-- `score = min(100, sum(s["weight"] for s in signals))`. -/
def imgScore (d : ImgData) : Nat :=
  min 100 ((imgSignals d).map Signal.weight).sum

def imgLevel (d : ImgData) : String :=
  if imgScore d < 20 then "basso" else if imgScore d < 50 then "medio" else "alto"

def IMG_NOTES : List String :=
  ["Questa analisi non è un verdetto: sono indizi tecnici.",
   "Consiglio: cerca la fonte originale (reverse image search) e verifica il contesto.",
   "Compressioni (WhatsApp/social) possono alterare i metadati e la qualità."]

/-- `analyze_image_bytes` from src/app/analyze_image.py.  A failed decode
propagates as the raised error; everything after the decode is total. -/
def analyze_image_bytes (decode : List Nat → Option ImgData) (fpB : List Nat → String)
    (data : List Nat) : Except ImgError ImgResult :=
  match decode data with
  | none => .error .decodeFailure
  | some d =>
    let level := imgLevel d
    let category :=
      if level = "medio" ∨ level = "alto" then "deepfake_suspected" else "image_check"
    .ok ⟨imgScore d, level, imgSignals d, IMG_NOTES, d.exifPresent, fpB data, category⟩

example : imgScore ⟨300, 200, false, 50⟩ = 28 := by decide
example : imgLevel ⟨300, 200, false, 50⟩ = "medio" := by decide
example : fmt1 50 = "50.0" := by decide
example : imgScore ⟨600, 600, true, 200⟩ = 0 := by decide

/-! ## src/app/storage.py

`load_reports` reads `reports.jsonl` line by line; the file is the list of
its lines (without the newline terminators) and `json.loads` is a parameter
`parse` (`none` = the `except` branch).  `append_report` mutates a
heap-allocated dict, so dicts live in an explicit store of addresses:
`report = dict(report)` is an allocation, `report["ts"] = int(time.time())`
is a write to the fresh address, and the `f.write(...)` is an append to the
log list. -/

/-- `load_reports` from src/app/storage.py (lines 18-34): `enumerate` counts
every line (blank or not) against `max_lines`; blank-after-strip lines and
lines `parse` rejects are skipped. -/
def load_reports (parse : List Char → Option α) : Nat → List (List Char) → List α
  | _, [] => []
  | 0, _ :: _ => []
  | n + 1, l :: ls =>
    let t := stripChs l
    if t = [] then load_reports parse n ls
    else
      match parse (stripChs l) with
      | some r => r :: load_reports parse n ls
      | none => load_reports parse n ls

/-- A Python value stored in a report dict (enough for the records the app
builds: strings and integers). -/
inductive PVal where
  | s (v : String)
  | n (v : Int)
deriving DecidableEq

/-- A Python dict as an insertion-ordered association list. -/
abbrev PDict := List (String × PVal)

/-- The heap: dicts indexed by address. -/
structure Store where
  heap : List PDict
deriving DecidableEq

def Store.get (st : Store) (a : Nat) : PDict := (st.heap.get? a).getD []

/-- `dict(report)`: a fresh address holding a shallow copy. -/
def Store.alloc (st : Store) (d : PDict) : Store × Nat :=
  (⟨st.heap ++ [d]⟩, st.heap.length)

def Store.put (st : Store) (a : Nat) (d : PDict) : Store := ⟨st.heap.set a d⟩

/-- `d[k] = v`: replace in place if the key exists, else append. -/
def dictSet (d : PDict) (k : String) (v : PVal) : PDict :=
  if d.any (fun kv => kv.1 = k) then
    d.map (fun kv => if kv.1 = k then (k, v) else kv)
  else d ++ [(k, v)]

/-- `append_report` from src/app/storage.py (lines 11-16): copy the argument
dict, set `"ts"` on the copy, append the copy's serialization to the log.
`a` is the address of the caller's dict, `ts` the value of
`int(time.time())`. -/
def append_report (st : Store) (log : List PDict) (a : Nat) (ts : Int) :
    Store × List PDict :=
  let d := st.get a
  let alloc1 := st.alloc d
  let st2 := alloc1.1.put alloc1.2 (dictSet (alloc1.1.get alloc1.2) "ts" (PVal.n ts))
  (st2, log ++ [st2.get alloc1.2])

example :
    (append_report ⟨[[("url", PVal.s "x")]]⟩ [] 0 42).2 =
      [[("url", PVal.s "x"), ("ts", PVal.n 42)]] := by decide
example :
    (append_report ⟨[[("url", PVal.s "x")]]⟩ [] 0 42).1.get 0 =
      [("url", PVal.s "x")] := by decide

/-! ## Helper lemmas -/

theorem get?_append_lt {α : Type} (l₁ l₂ : List α) (n : Nat) (h : n < l₁.length) :
    (l₁ ++ l₂).get? n = l₁.get? n := by
  induction l₁ generalizing n with
  | nil => exact absurd h (Nat.not_lt_zero n)
  | cons x t ih =>
    cases n with
    | zero => rfl
    | succ n => exact ih n (Nat.lt_of_succ_lt_succ h)

theorem get?_concat_len {α : Type} (l : List α) (x : α) :
    (l ++ [x]).get? l.length = some x := by
  induction l with
  | nil => rfl
  | cons y t ih => exact ih

theorem get?_set_neq {α : Type} (l : List α) (m n : Nat) (a : α) (h : m ≠ n) :
    (l.set m a).get? n = l.get? n := by
  induction l generalizing m n with
  | nil => rfl
  | cons x t ih =>
    cases m with
    | zero => cases n with
      | zero => exact absurd rfl h
      | succ n => rfl
    | succ m => cases n with
      | zero => rfl
      | succ n => exact ih m n (fun he => h (congrArg Nat.succ he))

theorem get?_set_self {α : Type} (l : List α) (n : Nat) (a : α) (h : n < l.length) :
    (l.set n a).get? n = some a := by
  induction l generalizing n with
  | nil => exact absurd h (Nat.not_lt_zero n)
  | cons x t ih =>
    cases n with
    | zero => rfl
    | succ n => exact ih n (Nat.lt_of_succ_lt_succ h)

theorem take_replicate_of_le {α : Type} (m n : Nat) (x : α) (h : m ≤ n) :
    (List.replicate n x).take m = List.replicate m x := by
  induction m generalizing n with
  | zero => rfl
  | succ m ih =>
    cases n with
    | zero => exact absurd h (Nat.not_succ_le_zero m)
    | succ n => simpa [List.replicate_succ] using ih n (Nat.le_of_succ_le_succ h)

theorem filterMap_replicate_some {α β : Type} (f : α → Option β) (x : α) (c : β)
    (hf : f x = some c) (n : Nat) :
    (List.replicate n x).filterMap f = List.replicate n c := by
  induction n with
  | zero => rfl
  | succ n ih => simp [List.replicate_succ, List.filterMap_cons, hf, ih]

theorem strip_all_ws (l : List Char) (h : l.all wsCh = true) : stripChs l = [] := by
  have h1 : l.dropWhile wsCh = [] := by
    induction l with
    | nil => rfl
    | cons c t ih =>
      simp only [List.all_cons, Bool.and_eq_true] at h
      simp [List.dropWhile_cons, h.1, ih h.2]
  simp [stripChs, h1]

theorem mem_fallback {α : Type} [DecidableEq α] (x : α) (l fb : List α) (h : x ∈ l) :
    x ∈ (if l = [] then fb else l) := by
  have hne : l ≠ [] := by
    intro he
    rw [he] at h
    cases h
  rw [if_neg hne]
  exact h

theorem ipv4Match_ne_nil (l : List Char) (h : ipv4Match l = true) : l ≠ [] := by
  intro he
  rw [he] at h
  exact absurd h (by decide)

/-! ## Claims -/

/-- Claim C1, amended.  Every scorer's score is a `Nat`, hence `≥ 0`;
`analyze_text`, `score_text`, `score_email` and the image scorer cap their
sum at 100, but `score_url` does not (see `claim1_cex`). -/
theorem claim1_score_bounds :
    (∀ t, (analyze_text t).score ≤ 100) ∧
    (∀ m, (score_text m).score ≤ 100) ∧
    (∀ e, (score_email e).score ≤ 100) ∧
    (∀ d, imgScore d ≤ 100) ∧
    (∀ u, 0 ≤ (score_url u).score) := by
  refine ⟨?_, ?_, ?_, ?_, ?_⟩
  · intro t
    simp only [analyze_text]
    exact Nat.min_le_right _ _
  · intro m
    simp only [score_text]
    split
    · exact Nat.zero_le _
    · exact Nat.min_le_right _ _
  · intro e
    simp only [score_email]
    split
    · exact Nat.zero_le _
    · exact Nat.min_le_right _ _
  · intro d
    exact Nat.min_le_left _ _
  · intro u
    exact Nat.zero_le _

/-- Claim C1, counterexample: `score_url` does not cap its sum, so a URL that
fires the non-HTTPS (+15), `@`-in-netloc (+25), IPv4-host (+30), many-labels
(+15), long-URL (+10) and keyword (+25) rules scores 120 > 100. -/
theorem claim1_cex :
    100 <
      (score_url
        "http://user@192.168.0.1/login-verify-account-secure-password-aaaaaaaaaaaaaaaaaaaaaaaaaaaaaaaaaaa").score := by
  decide

theorem urlScoreOf_ge_45 (rawN : List Char) (p : USplit)
    (hs : p.scheme = chars "http") (hip : ipv4Match (hostnameOf p.netloc) = true) :
    45 ≤ urlScoreOf rawN p := by
  simp only [urlScoreOf, hs, hip]
  have h1 : (if chars "http" ≠ chars "https" then (15 : Nat) else 0) = 15 := by decide
  rw [h1]
  simp only [if_true]
  omega

/-- Claim C2, amended.  When the parsed scheme is `http` (the input began
with `http://`, so no `https://` was prepended) and the parsed host is an
IPv4 literal, the +15 non-HTTPS rule and the +30 IPv4 rule both fire, the
score is at least 45 and the verdict is the phishing one.  The input
`"ftp://192.168.0.1/login"` of the original claim does not reach this case:
it lacks an `http://`/`https://` prefix, so `https://` is prepended and the
parsed host becomes `"ftp"` (see `claim2_cex`). -/
theorem claim2_http_ipv4 (u : String) (p : USplit)
    (hp : urlparse (normRaw (stripChs (chars u))) = some p)
    (hs : p.scheme = chars "http")
    (hip : ipv4Match (hostnameOf p.netloc) = true) :
    45 ≤ (score_url u).score ∧ (score_url u).verdict = "Sembra phishing" := by
  have hhost : hostnameOf p.netloc ≠ [] := by
    intro he
    rw [he] at hip
    exact absurd hip (by decide)
  have h45 := urlScoreOf_ge_45 (normRaw (stripChs (chars u))) p hs hip
  simp only [score_url, hp]
  rw [if_neg hhost]
  exact ⟨h45, if_pos h45⟩

/-- Claim C2, counterexample: on the claim's own input the score is 5 (only
the `login` keyword rule fires) and the verdict is not the phishing one. -/
theorem claim2_cex :
    (score_url "ftp://192.168.0.1/login").score < 45 ∧
    (score_url "ftp://192.168.0.1/login").verdict ≠ "Sembra phishing" := by
  decide

theorem claim2_witness :
    urlparse (normRaw (stripChs (chars "http://192.168.0.1/login"))) =
      some ⟨chars "http", chars "192.168.0.1", chars "/login", []⟩ ∧
    (45 ≤ (score_url "http://192.168.0.1/login").score ∧
      (score_url "http://192.168.0.1/login").verdict = "Sembra phishing") :=
  ⟨by decide,
   claim2_http_ipv4 "http://192.168.0.1/login"
     ⟨chars "http", chars "192.168.0.1", chars "/login", []⟩
     (by decide) (by decide) (by decide)⟩

/-- Claim C3: for every empty or whitespace-only input, `score_text` returns
score 0, the dedicated "Inserisci un testo" verdict (distinct from the three
scored verdicts), the single no-text reason, and an empty link list. -/
theorem claim3_blank_text (m : String) (h : (chars m).all wsCh = true) :
    score_text m = ⟨0, "Inserisci un testo", ["Non hai incollato nulla."], []⟩ ∧
    (score_text m).verdict ≠ "Molto sospetto" ∧
    (score_text m).verdict ≠ "Sospetto" ∧
    (score_text m).verdict ≠ "Probabilmente ok (ma attenzione)" := by
  have hs := strip_all_ws _ h
  have h0 : score_text m = ⟨0, "Inserisci un testo", ["Non hai incollato nulla."], []⟩ := by
    simp [score_text, hs]
  rw [h0]
  exact ⟨rfl, by decide, by decide, by decide⟩

theorem claim3_witness :
    (chars "  ").all wsCh = true ∧
    score_text "  " = ⟨0, "Inserisci un testo", ["Non hai incollato nulla."], []⟩ :=
  ⟨by decide, (claim3_blank_text "  " (by decide)).1⟩

/-- Claim C4: `score_url` is total (it always returns a result with a
non-empty reason list); when the normalized input does not parse it returns
exactly score 100 with the "URL non valido" reason, and when the parsed host
is empty it returns exactly score 100 with the "Manca il dominio" reason. -/
theorem claim4_url_errors (u : String) :
    (score_url u).reasons ≠ [] ∧
    (urlparse (normRaw (stripChs (chars u))) = none →
      score_url u =
        ⟨100, "Sembra phishing", ["URL non valido o non interpretabile."],
         strOf (stripChs (chars u))⟩) ∧
    (∀ p, urlparse (normRaw (stripChs (chars u))) = some p → hostnameOf p.netloc = [] →
      score_url u =
        ⟨100, "Sembra phishing", ["Manca il dominio nell’URL."],
         strOf (stripChs (chars u))⟩) := by
  refine ⟨?_, fun hn => ?_, fun p hp2 hph => ?_⟩
  · cases hp : urlparse (normRaw (stripChs (chars u))) with
    | none =>
      simp only [score_url, hp]
      intro he
      exact List.noConfusion he
    | some q =>
      simp only [score_url, hp]
      by_cases hh : hostnameOf q.netloc = []
      · rw [if_pos hh]
        intro he
        exact List.noConfusion he
      · rw [if_neg hh]
        dsimp only
        split
        · intro he; exact List.noConfusion he
        · next hne => exact hne
  · simp only [score_url, hn]
  · simp only [score_url, hp2]
    rw [if_pos hph]

theorem claim4_witness :
    urlparse (normRaw (stripChs (chars "http://[abc"))) = none ∧
    score_url "http://[abc" =
      ⟨100, "Sembra phishing", ["URL non valido o non interpretabile."],
       strOf (stripChs (chars "http://[abc"))⟩ :=
  ⟨by decide, (claim4_url_errors "http://[abc").2.1 (by decide)⟩

/-- Claim C5: any text containing a shortener token (`bit.ly`, `tinyurl` or
`t.co`) together with the word `password` makes `analyze_text` fire
`SHORTENER`, `CREDENTIALS_REQUEST` and the `DANGEROUS_COMBO` bonus, and
score at least 65 = 20 + 20 + 25. -/
theorem claim5_shortener_password (t : String)
    (hshort : (hasSub (lowerChs (chars t)) (chars "bit.ly") ||
        hasSub (lowerChs (chars t)) (chars "tinyurl") ||
        hasSub (lowerChs (chars t)) (chars "t.co")) = true)
    (hpass : hasSub (lowerChs (chars t)) (chars "password") = true) :
    ((analyze_text t).signals.map Signal.code).contains "SHORTENER" = true ∧
    ((analyze_text t).signals.map Signal.code).contains "CREDENTIALS_REQUEST" = true ∧
    ((analyze_text t).signals.map Signal.code).contains "DANGEROUS_COMBO" = true ∧
    65 ≤ (analyze_text t).score := by
  simp only [analyze_text, hshort, hpass, Bool.true_or]
  cases hl : (hasSub (lowerChs (chars t)) (chars "http://") ||
      hasSub (lowerChs (chars t)) (chars "https://")) <;>
    cases ht : (hasSub (lowerChs (chars t)) (chars "bloccato") ||
        hasSub (lowerChs (chars t)) (chars "sospeso") ||
        hasSub (lowerChs (chars t)) (chars "urgente") ||
        hasSub (lowerChs (chars t)) (chars "verifica") ||
        hasSub (lowerChs (chars t)) (chars "aggiorna") ||
        hasSub (lowerChs (chars t)) (chars "conferma")) <;>
    decide

theorem claim5_witness :
    (hasSub (lowerChs (chars "bit.ly password")) (chars "bit.ly") ||
      hasSub (lowerChs (chars "bit.ly password")) (chars "tinyurl") ||
      hasSub (lowerChs (chars "bit.ly password")) (chars "t.co")) = true ∧
    hasSub (lowerChs (chars "bit.ly password")) (chars "password") = true ∧
    (((analyze_text "bit.ly password").signals.map Signal.code).contains "SHORTENER" = true ∧
     ((analyze_text "bit.ly password").signals.map Signal.code).contains
        "CREDENTIALS_REQUEST" = true ∧
     ((analyze_text "bit.ly password").signals.map Signal.code).contains
        "DANGEROUS_COMBO" = true ∧
     65 ≤ (analyze_text "bit.ly password").score) :=
  ⟨by decide, by decide, claim5_shortener_password "bit.ly password" (by decide) (by decide)⟩

/-- Claim C6: when the decoder rejects the bytes, `analyze_image_bytes`
propagates the decode error and produces no scored result. -/
theorem claim6_decode_error (decode : List Nat → Option ImgData)
    (fpB : List Nat → String) (data : List Nat) (h : decode data = none) :
    analyze_image_bytes decode fpB data = .error .decodeFailure := by
  simp only [analyze_image_bytes, h]

theorem claim6_witness :
    analyze_image_bytes (fun _ => none) (fun _ => "") [] = .error .decodeFailure :=
  claim6_decode_error (fun _ => none) (fun _ => "") [] rfl

/-- Claim C7: a decodable image with no EXIF, dimensions 300×200 and
grayscale variance 50 scores 10 + 8 + 10 = 28, level "medio" and category
"deepfake_suspected". -/
theorem claim7_image_28 (decode : List Nat → Option ImgData)
    (fpB : List Nat → String) (data : List Nat)
    (h : decode data = some ⟨300, 200, false, 50⟩) :
    (analyze_image_bytes decode fpB data).map
        (fun r => (r.score, r.level, r.category, r.signals)) =
      .ok (28, "medio", "deepfake_suspected",
        [⟨"NO_EXIF", 10, "Nessun EXIF"⟩, ⟨"LOW_RES", 8, "300x200"⟩,
         ⟨"LOW_DETAIL", 10, "var=50.0"⟩]) := by
  simp only [analyze_image_bytes, h]
  rfl

theorem claim7_witness :
    ((fun (_ : List Nat) => some (⟨300, 200, false, 50⟩ : ImgData)) [] =
      some (⟨300, 200, false, 50⟩ : ImgData)) ∧
    (analyze_image_bytes (fun _ => some ⟨300, 200, false, 50⟩) (fun _ => "") []).map
        (fun r => (r.score, r.level, r.category, r.signals)) =
      .ok (28, "medio", "deepfake_suspected",
        [⟨"NO_EXIF", 10, "Nessun EXIF"⟩, ⟨"LOW_RES", 8, "300x200"⟩,
         ⟨"LOW_DETAIL", 10, "var=50.0"⟩]) :=
  ⟨rfl, claim7_image_28 (fun _ => some ⟨300, 200, false, 50⟩) (fun _ => "") [] rfl⟩

/-- Claim C8: whenever the stripped message contains at least one embedded
link, `score_text` adds exactly +15 for link presence (the capped total is
15 plus the link-independent rest) and reports the link count in the
corresponding reason. -/
theorem claim8_link_bonus (m : String)
    (h : findLinks (stripChs (chars m)) ≠ []) :
    (score_text m).score = min (15 + st_restScore (stripChs (chars m))) 100 ∧
    ("Contiene " ++ Nat.repr (findLinks (stripChs (chars m))).length ++
      " link nel messaggio (spesso usati per portarti fuori).") ∈
      (score_text m).reasons := by
  have hmsg : stripChs (chars m) ≠ [] := by
    intro he
    rw [he] at h
    exact h rfl
  simp only [score_text, st_restScore, if_neg hmsg, if_neg h]
  constructor
  · congr 1
    omega
  · apply mem_fallback
    simp

theorem claim8_witness :
    findLinks (stripChs (chars "http://x")) ≠ [] ∧
    ((score_text "http://x").score =
        min (15 + st_restScore (stripChs (chars "http://x"))) 100 ∧
      ("Contiene " ++ Nat.repr (findLinks (stripChs (chars "http://x"))).length ++
        " link nel messaggio (spesso usati per portarti fuori).") ∈
        (score_text "http://x").reasons) :=
  ⟨by decide, claim8_link_bonus "http://x" (by decide)⟩

theorem load_reports_take {α : Type} (parse : List Char → Option α) (n : Nat)
    (ls : List (List Char)) :
    load_reports parse n ls =
      (ls.take n).filterMap
        (fun l => if stripChs l = [] then none else parse (stripChs l)) := by
  induction ls generalizing n with
  | nil => cases n <;> rfl
  | cons l ls ih =>
    cases n with
    | zero => rfl
    | succ n =>
      simp only [load_reports, List.take_succ_cons, List.filterMap_cons]
      by_cases hb : stripChs l = []
      · simp [hb, ih]
      · rw [if_neg hb, if_neg hb]
        cases hp : parse (stripChs l) <;> simp [ih]

/-- Claim C9, amended.  `load_reports` is total, skips blank lines and lines
the parser rejects, and returns exactly the parseable records among the
first `max_lines` lines of the file, in insertion order.  (The original
claim omits the `max_lines` cut-off, default 5000: see `claim9_cex`.) -/
theorem claim9_load_reports {α : Type} (parse : List Char → Option α) (n : Nat)
    (ls : List (List Char)) :
    load_reports parse n ls =
      (ls.take n).filterMap
        (fun l => if stripChs l = [] then none else parse (stripChs l)) :=
  load_reports_take parse n ls

/-- The always-succeeding parser used in the C9 counterexample. -/
def lenParse (l : List Char) : Option Nat := some l.length

/-- Claim C9, counterexample: with the default `max_lines = 5000`, a log of
5001 parseable one-character lines yields only the first 5000 records, so
the result is not the full list of parseable records of the file. -/
theorem claim9_cex :
    load_reports lenParse 5000 (List.replicate 5001 (chars "1")) ≠
      (List.replicate 5001 (chars "1")).filterMap
        (fun l => if stripChs l = [] then none else lenParse (stripChs l)) := by
  have hf : (fun (l : List Char) => if stripChs l = [] then none else lenParse (stripChs l))
      (chars "1") = some 1 := by decide
  intro he
  have hlen := congrArg List.length he
  rw [load_reports_take, take_replicate_of_le 5000 5001 _ (by omega),
    filterMap_replicate_some
      (fun l => if stripChs l = [] then none else lenParse (stripChs l))
      (chars "1") 1 hf 5000,
    filterMap_replicate_some
      (fun l => if stripChs l = [] then none else lenParse (stripChs l))
      (chars "1") 1 hf 5001] at hlen
  simp only [List.length_replicate] at hlen
  omega

/-- Claim C10: `append_report` copies the caller's dict before adding the
`"ts"` field, so the caller's dict (at address `a`) is unchanged by the
call, while the appended log line is the copy with `"ts"` set. -/
theorem claim10_append_frame (st : Store) (log : List PDict) (a : Nat) (ts : Int)
    (h : a < st.heap.length) :
    (append_report st log a ts).1.get a = st.get a ∧
    (append_report st log a ts).2 = log ++ [dictSet (st.get a) "ts" (PVal.n ts)] := by
  have hl2 : ∀ x : PDict, st.heap.length < (st.heap ++ [x]).length := by
    intro x
    simp only [List.length_append, List.length_cons, List.length_nil]
    omega
  constructor
  · simp only [append_report, Store.alloc, Store.put, Store.get]
    rw [get?_set_neq _ _ _ _ (Nat.ne_of_gt h), get?_append_lt _ _ _ h]
  · simp only [append_report, Store.alloc, Store.put, Store.get]
    rw [get?_set_self _ _ _ (hl2 _), Option.getD_some, get?_concat_len, Option.getD_some]

theorem claim10_witness :
    0 < (Store.mk [[("url", PVal.s "x")]]).heap.length ∧
    (append_report ⟨[[("url", PVal.s "x")]]⟩ [] 0 42).1.get 0 =
      (Store.mk [[("url", PVal.s "x")]]).get 0 ∧
    (append_report ⟨[[("url", PVal.s "x")]]⟩ [] 0 42).2 =
      [] ++ [dictSet ((Store.mk [[("url", PVal.s "x")]]).get 0) "ts" (PVal.n 42)] :=
  ⟨by decide, claim10_append_frame ⟨[[("url", PVal.s "x")]]⟩ [] 0 42 (by decide)⟩

end AntiTruffa
